import Mathlib

/-!
Verification development for the nfl-stats-dashboard repository.

The repository has two independently written data-fetching implementations:
`api.js` (browser side) and `scripts/fetch-data.js` (batch side).  This file
gives a shallow embedding of the pure data logic of both: the JavaScript
value universe with its truthiness, the week/season calculators, the HTTP
adapters (`fetchUrl`, `fetchWithTimeout`) as functions of an abstract fetch
outcome, the per-leader reference resolution and category normalization, the
`fetchWithCache` fallback orchestrator over an explicit localStorage model,
and `clearCache`.  Asynchrony is modelled by passing each network call's
outcome as an explicit `Except` value; JSON parsing of a response body is
modelled by its outcome.
-/

/-- Model of a JavaScript value as handled by this code base (no objects are
needed by the claims: the orchestrator treats values opaquely except for
array emptiness and truthiness). -/
inductive JsVal where
  | null
  | bool (b : Bool)
  | num (q : ℚ)
  | str (s : String)
  | arr (xs : List JsVal)
deriving Repr

/-- JavaScript truthiness for `JsVal` (`NaN` is not modelled; arrays are
always truthy, in particular the empty array). -/
def truthy : JsVal → Bool
  | .null => false
  | .bool b => b
  | .num q => q != 0
  | .str s => s != ""
  | .arr _ => true

/-- `isEmptyData` from api.js: `!data || (Array.isArray(data) && data.length === 0)`. -/
def isEmptyData (data : JsVal) : Bool :=
  !truthy data ||
    (match data with
     | .arr xs => xs.isEmpty
     | _ => false)

/-- JavaScript `a || b` where `a` is a possibly-absent number
(`undefined` and `0` are falsy and fall through to `b`). -/
def orQ (a : Option ℚ) (b : ℚ) : ℚ :=
  match a with
  | some v => if v = 0 then b else v
  | none => b

/-- JavaScript `a || b` on two numbers (`0` is falsy). -/
def jsOrV (a b : ℚ) : ℚ :=
  if a = 0 then b else a

/-- JavaScript `a || b` where `a` is a possibly-absent string
(`undefined` and `""` are falsy). -/
def strOr (a : Option String) (b : String) : String :=
  match a with
  | some s => if s = "" then b else s
  | none => b

/-- JavaScript `Math.round`: round half toward positive infinity. -/
def jsRound (q : ℚ) : Int :=
  ⌊q + 1 / 2⌋

/-- Format a natural number of tenths as `"<units>.<tenth>"`. -/
def fmtTenths (m : Nat) : String :=
  toString (m / 10) ++ "." ++ toString (m % 10)

/-- JavaScript `x.toFixed(1)` (decimal rounding to one digit; ties pick the
larger candidate, matching the ECMAScript rule). -/
def toFixed1 (q : ℚ) : String :=
  let n : Int := ⌊q * 10 + 1 / 2⌋
  if n < 0 then "-" ++ fmtTenths (-n).toNat else fmtTenths n.toNat

/-!
## Period calculator

Both implementations compare `Date` values, which JavaScript compares by
their millisecond timestamps; a date is therefore modelled as milliseconds
since the Unix epoch (an `Int`).  Calendar conversion (needed because
`fetch-data.js` derives the season year from the date's month, and the
season boundary constants are written as civil dates with fixed UTC
offsets) uses the standard era-based civil-calendar algorithms.  Local time
is modelled as UTC, which is the timezone of the batch runner.
-/

/-- Days since 1970-01-01 of the civil date `y-m-d` (proleptic Gregorian). -/
def daysFromCivil (y m d : Int) : Int :=
  let y := if m ≤ 2 then y - 1 else y
  let era := (if 0 ≤ y then y else y - 399) / 400
  let yoe := y - era * 400
  let doy := (153 * (if 2 < m then m - 3 else m + 9) + 2) / 5 + d - 1
  let doe := yoe * 365 + yoe / 4 - yoe / 100 + doy
  era * 146097 + doe - 719468

/-- Civil date `(y, m, d)` of a count of days since 1970-01-01. -/
def civilFromDays (z : Int) : Int × Int × Int :=
  let z := z + 719468
  let era := (if 0 ≤ z then z else z - 146096) / 146097
  let doe := z - era * 146097
  let yoe := (doe - doe / 1460 + doe / 36524 - doe / 146096) / 365
  let y := yoe + era * 400
  let doy := doe - (365 * yoe + yoe / 4 - yoe / 100)
  let mp := (5 * doy + 2) / 153
  let d := doy - (153 * mp + 2) / 5 + 1
  let m := mp + (if mp < 10 then 3 else -9)
  (if m ≤ 2 then y + 1 else y, m, d)

/-- Epoch milliseconds of the UTC instant `y-m-d hh:mm:ss`. -/
def utcMs (y m d hh mm ss : Int) : Int :=
  (daysFromCivil y m d * 86400 + hh * 3600 + mm * 60 + ss) * 1000

/-- `7 * 24 * 60 * 60 * 1000`, the `millisecondsPerWeek` constant. -/
def millisecondsPerWeek : Int := 7 * 24 * 60 * 60 * 1000

/-- The common body of both `getCurrentNFLWeek` implementations, as a
function of the season-start and season-end instants: before the start
return 1, after the end return 18, otherwise
`min (floor ((now - start) / millisecondsPerWeek) + 1) 18`.
`Math.floor` of a nonnegative real quotient is floor division (`Int.ediv`). -/
def weekOf (seasonStart regularSeasonEnd now : Int) : Int :=
  if now < seasonStart then 1
  else if regularSeasonEnd < now then 18
  else min ((now - seasonStart).ediv millisecondsPerWeek + 1) 18

namespace ApiJs

/-- Season start of api.js: `'2024-09-05T00:00:00-04:00'` (04:00 UTC). -/
def seasonStart : Int := utcMs 2024 9 5 4 0 0

/-- Season end of api.js: `'2025-01-05T23:59:59-05:00'` (Jan 6, 04:59:59 UTC). -/
def regularSeasonEnd : Int := utcMs 2025 1 6 4 59 59

/-- `getCurrentNFLWeek` from api.js, with its fixed 2024-season window. -/
def getCurrentNFLWeek (now : Int) : Int :=
  weekOf seasonStart regularSeasonEnd now

end ApiJs

namespace FetchData

/-- `getCurrentNFLSeason` from scripts/fetch-data.js: month January..August
(`getMonth() ≤ 7`, i.e. civil month ≤ 8) uses the previous calendar year,
September..December the current one.  Local time is modelled as UTC. -/
def getCurrentNFLSeason (now : Int) : Int :=
  let c := civilFromDays (now.ediv 86400000)
  if c.2.1 ≤ 8 then c.1 - 1 else c.1

/-- Season start used by fetch-data.js: `` `${seasonYear}-09-04T00:00:00-04:00` ``. -/
def seasonStart (seasonYear : Int) : Int := utcMs seasonYear 9 4 4 0 0

/-- Season end used by fetch-data.js: `` `${seasonYear + 1}-01-10T23:59:59-05:00` ``
(Jan 11, 04:59:59 UTC). -/
def regularSeasonEnd (seasonYear : Int) : Int := utcMs (seasonYear + 1) 1 11 4 59 59

/-- `getCurrentNFLWeek` from scripts/fetch-data.js: the season window is
derived from the current date's computed season year. -/
def getCurrentNFLWeek (now : Int) : Int :=
  let seasonYear := getCurrentNFLSeason now
  weekOf (seasonStart seasonYear) (regularSeasonEnd seasonYear) now

end FetchData

/-!
## Remote fetch adapters

A single HTTP GET is modelled by its observable outcome: either the request
timed out, or a response arrived carrying a status code and a body whose
JSON parse either succeeded with a `JsVal` or failed.  Transport-level
connection errors are outside this model.
-/

/-- Observable outcome of one HTTP GET: timeout, or a response with a
status code and the parse outcome of its body. -/
inductive FetchOutcome where
  | timeout
  | response (status : Nat) (body : Except Unit JsVal)

/-- The failure taxonomy of the two adapters. -/
inductive FetchErr where
  | timeout
  | httpError (status : Nat)
  | parseError
deriving DecidableEq

namespace FetchData

/-- `fetchUrl` from scripts/fetch-data.js: on `'end'`, parse the body only
when `res.statusCode === 200`, rejecting with `HTTP <status>` otherwise;
reject with a timeout error on the `'timeout'` event. -/
def fetchUrl (o : FetchOutcome) : Except FetchErr JsVal :=
  match o with
  | .timeout => .error .timeout
  | .response status body =>
      if status == 200 then
        match body with
        | .ok v => .ok v
        | .error _ => .error .parseError
      else .error (.httpError status)

end FetchData

namespace ApiJs

/-- `fetchWithTimeout` from api.js: abort on timeout, throw
`HTTP error! status: <status>` when `!response.ok` (`ok` means status in
200..299), otherwise `response.json()` whose parse failure propagates. -/
def fetchWithTimeout (o : FetchOutcome) : Except FetchErr JsVal :=
  match o with
  | .timeout => .error .timeout
  | .response status body =>
      if 200 ≤ status ∧ status ≤ 299 then
        match body with
        | .ok v => .ok v
        | .error _ => .error .parseError
      else .error (.httpError status)

end ApiJs

/-!
## Leader-board category matching
-/

namespace FetchData

/-- The category-name matching of `fetchPlayerStats` in scripts/fetch-data.js
(both the primary and the 2024-fallback pass use the same chain): either raw
naming convention maps to the target key. -/
def categoryTargetKey (categoryName : String) : Option String :=
  if categoryName == "passingYards" || categoryName == "passing" then some "qb"
  else if categoryName == "receivingYards" || categoryName == "receiving" then some "receivers"
  else if categoryName == "rushingYards" || categoryName == "rushing" then some "rushers"
  else none

/-- The statistics-split matching inside `fetchPlayerStats`:
`cat.name === targetKey` or the long/short pairing for the target key. -/
def statsCatMatches (targetKey catName : String) : Bool :=
  catName == targetKey ||
    (targetKey == "qb" && catName == "passing") ||
    (targetKey == "receivers" && catName == "receiving") ||
    (targetKey == "rushers" && catName == "rushing")

end FetchData

namespace ApiJs

/-- The category matching of `fetchQBStats` in api.js:
`cat.name === 'passingYards' || cat.displayName === 'Passing Yards'`. -/
def qbCategoryMatches (name displayName : String) : Bool :=
  name == "passingYards" || displayName == "Passing Yards"

/-- The category matching of `fetchReceiverStats` in api.js. -/
def receiverCategoryMatches (name displayName : String) : Bool :=
  name == "receivingYards" || displayName == "Receiving Yards"

/-- The category matching of `fetchRushingStats` in api.js. -/
def rushingCategoryMatches (name displayName : String) : Bool :=
  name == "rushingYards" || displayName == "Rushing Yards"

end ApiJs

/-!
## Reference resolution and category normalization

The remote payloads are modelled by the fields this code reads: an athlete
payload by its optional `displayName`/`fullName`, a team payload by its
optional `abbreviation`, and a statistics payload by the optional
`splits.categories` list, each category carrying a `name` and a `stats`
list of name/value pairs.  The outcome of resolving one `$ref` is an
`Except`; a `$ref` that is absent from the leader entry is `none`.
-/

/-- Athlete payload: the fields read are `displayName` and `fullName`. -/
structure Athlete where
  displayName : Option String
  fullName : Option String
deriving Repr, DecidableEq

/-- Team payload: the field read is `abbreviation`. -/
structure Team where
  abbreviation : Option String
deriving Repr, DecidableEq

/-- One entry of `statsData.splits.categories`. -/
structure StatCategory where
  name : String
  stats : List (String × ℚ)
deriving Repr, DecidableEq

/-- A statistics payload: `none` models a payload without
`splits`/`splits.categories`. -/
def StatsData := Option (List StatCategory)

/-- `athlete.displayName || athlete.fullName || 'Unknown'`. -/
def athleteName (a : Athlete) : String :=
  strOr a.displayName (strOr a.fullName "Unknown")

/-- Lookup in the `detailedStats` object of fetch-data.js, which is built by
`stats.forEach(stat => detailedStats[stat.name] = stat.value)`: the last
binding of a name wins; an unbound name reads as `undefined` (`none`). -/
def slook (m : List (String × ℚ)) (k : String) : Option ℚ :=
  ((m.filter (fun p => p.1 == k)).getLast?).map Prod.snd

/-- The `getStat` helper of api.js: `stats.find(s => s.name === name)`,
returning `stat.value` of the first match and `0` when absent. -/
def apiGetStat (l : List (String × ℚ)) (k : String) : ℚ :=
  match l.find? (fun p => p.1 == k) with
  | some p => p.2
  | none => 0

/-- The `qb` output shape. -/
structure QBRecord where
  rank : Nat
  name : String
  team : String
  games : Int
  completions : Int
  attempts : Int
  compPct : String
  yards : Int
  tds : Int
  ints : Int
  rating : String
deriving Repr, DecidableEq

/-- The `receivers` output shape. -/
structure ReceiverRecord where
  rank : Nat
  name : String
  team : String
  games : Int
  receptions : Int
  targets : Int
  yards : Int
  avg : String
  tds : Int
  long : Int
  ypg : String
deriving Repr, DecidableEq

/-- The `rushers` output shape. -/
structure RusherRecord where
  rank : Nat
  name : String
  team : String
  games : Int
  attempts : Int
  yards : Int
  avg : String
  tds : Int
  long : Int
  ypg : String
  fumbles : Int
deriving Repr, DecidableEq

namespace FetchData

/-- The `targetKey === 'qb'` transform block of `fetchPlayerStats`
(scripts/fetch-data.js): every numeric stat read as
`Math.round(detailedStats.x || 0)`, `compPct` and `rating` formatted with
`toFixed(1)`, `yards` taken from `leader.value`. -/
def mkQBRecord (rank : Nat) (name team : String) (leaderValue : Option ℚ)
    (m : List (String × ℚ)) : QBRecord where
  rank := rank
  name := name
  team := team
  games := jsRound (orQ (slook m "gamesPlayed") (orQ (slook m "teamGamesPlayed") 0))
  completions := jsRound (orQ (slook m "completions") 0)
  attempts := jsRound (orQ (slook m "passingAttempts") 0)
  compPct := toFixed1 (orQ (slook m "completionPct") 0) ++ "%"
  yards := jsRound (orQ leaderValue 0)
  tds := jsRound (orQ (slook m "passingTouchdowns") 0)
  ints := jsRound (orQ (slook m "interceptions") 0)
  rating := toFixed1 (orQ (slook m "quarterbackRating") (orQ (slook m "QBRating") 0))

/-- The `targetKey === 'receivers'` transform block of `fetchPlayerStats`. -/
def mkReceiverRecord (rank : Nat) (name team : String) (leaderValue : Option ℚ)
    (m : List (String × ℚ)) : ReceiverRecord where
  rank := rank
  name := name
  team := team
  games := jsRound (orQ (slook m "gamesPlayed") (orQ (slook m "teamGamesPlayed") 0))
  receptions := jsRound (orQ (slook m "receptions") 0)
  targets := jsRound (orQ (slook m "receivingTargets") 0)
  yards := jsRound (orQ leaderValue 0)
  avg := toFixed1 (orQ (slook m "yardsPerReception") (orQ (slook m "avgYards") 0))
  tds := jsRound (orQ (slook m "receivingTouchdowns") 0)
  long := jsRound (orQ (slook m "longReception") 0)
  ypg := toFixed1 (orQ (slook m "receivingYardsPerGame") (orQ (slook m "yardsPerGame") 0))

/-- The `targetKey === 'rushers'` transform block of `fetchPlayerStats`. -/
def mkRusherRecord (rank : Nat) (name team : String) (leaderValue : Option ℚ)
    (m : List (String × ℚ)) : RusherRecord where
  rank := rank
  name := name
  team := team
  games := jsRound (orQ (slook m "gamesPlayed") (orQ (slook m "teamGamesPlayed") 0))
  attempts := jsRound (orQ (slook m "rushingAttempts") 0)
  yards := jsRound (orQ leaderValue 0)
  avg := toFixed1 (orQ (slook m "yardsPerRushAttempt") (orQ (slook m "avgYards") 0))
  tds := jsRound (orQ (slook m "rushingTouchdowns") 0)
  long := jsRound (orQ (slook m "longRushing") 0)
  ypg := toFixed1 (orQ (slook m "rushingYardsPerGame") (orQ (slook m "yardsPerGame") 0))
  fumbles := jsRound (orQ (slook m "rushingFumbles") (orQ (slook m "fumblesLost") 0))

/-- Team resolution of `fetchPlayerStats`: `teamAbbr` starts as `'N/A'`; a
present `$ref` is fetched inside its own `try`, and a fetch failure leaves
`'N/A'` in place. -/
def resolveTeam (team : Option (Except Unit Team)) : String :=
  match team with
  | some (.ok t) => strOr t.abbreviation "N/A"
  | _ => "N/A"

/-- Building `detailedStats` from a fetched statistics payload: find the
first matching split category and take its `stats` list (empty when
`splits.categories` is missing or no category matches). -/
def extractStats (targetKey : String) (sd : StatsData) : List (String × ℚ) :=
  match sd with
  | none => []
  | some cats =>
      match cats.find? (fun c => statsCatMatches targetKey c.name) with
      | some c => c.stats
      | none => []

/-- Statistics resolution of `fetchPlayerStats`: an absent `$ref` or a fetch
failure (caught in its own `try`) leaves `detailedStats` empty. -/
def resolveStats (targetKey : String) (stats : Option (Except Unit StatsData)) :
    List (String × ℚ) :=
  match stats with
  | some (.ok sd) => extractStats targetKey sd
  | _ => []

/-- Processing of one `qb` leader entry in `fetchPlayerStats`: a missing
athlete `$ref` (`continue`) or a failed athlete fetch (caught by the
per-leader `catch`) drops the entry; team and statistics resolution cannot
fail it.  `i` is the loop index, so the rank is `i + 1`. -/
def processQBLeader (i : Nat) (leaderValue : Option ℚ)
    (athlete : Option (Except Unit Athlete)) (team : Option (Except Unit Team))
    (stats : Option (Except Unit StatsData)) : Option QBRecord :=
  match athlete with
  | some (.ok a) =>
      some (mkQBRecord (i + 1) (athleteName a) (resolveTeam team) leaderValue
        (resolveStats "qb" stats))
  | _ => none

/-- Processing of one `receivers` leader entry in `fetchPlayerStats`. -/
def processReceiverLeader (i : Nat) (leaderValue : Option ℚ)
    (athlete : Option (Except Unit Athlete)) (team : Option (Except Unit Team))
    (stats : Option (Except Unit StatsData)) : Option ReceiverRecord :=
  match athlete with
  | some (.ok a) =>
      some (mkReceiverRecord (i + 1) (athleteName a) (resolveTeam team) leaderValue
        (resolveStats "receivers" stats))
  | _ => none

/-- Processing of one `rushers` leader entry in `fetchPlayerStats`. -/
def processRusherLeader (i : Nat) (leaderValue : Option ℚ)
    (athlete : Option (Except Unit Athlete)) (team : Option (Except Unit Team))
    (stats : Option (Except Unit StatsData)) : Option RusherRecord :=
  match athlete with
  | some (.ok a) =>
      some (mkRusherRecord (i + 1) (athleteName a) (resolveTeam team) leaderValue
        (resolveStats "rushers" stats))
  | _ => none

end FetchData

namespace ApiJs

/-- The `passing` stats list used by `fetchQBStats` in api.js: from a
non-null statistics payload, the first split category whose name is exactly
`'passing'`; otherwise the empty list (every `getStat` then yields 0). -/
def passingStatsList (sp : Option StatsData) : List (String × ℚ) :=
  match sp with
  | some (some cats) =>
      match cats.find? (fun c => c.name == "passing") with
      | some c => c.stats
      | _ => []
  | _ => []

/-- The record built by `fetchQBStats` in api.js for leader index `i`:
each stat is `getStat(x) || getStat(alias) || 0` over the `passing` split,
`compPct`/`rating` formatted with `toFixed(1)`, `yards` from
`leader.value`, numeric fields through `Math.round`. -/
def mkQBRecord (i : Nat) (name team : String) (leaderValue : Option ℚ)
    (sp : Option StatsData) : QBRecord :=
  let l := passingStatsList sp
  { rank := i + 1
    name := name
    team := team
    games := jsRound (jsOrV (apiGetStat l "gamesPlayed") (jsOrV (apiGetStat l "teamGamesPlayed") 0))
    completions := jsRound (jsOrV (apiGetStat l "completions") 0)
    attempts := jsRound (jsOrV (apiGetStat l "passingAttempts") 0)
    compPct := toFixed1 (jsOrV (apiGetStat l "completionPct") 0) ++ "%"
    yards := jsRound (orQ leaderValue 0)
    tds := jsRound (jsOrV (apiGetStat l "passingTouchdowns") 0)
    ints := jsRound (jsOrV (apiGetStat l "interceptions") 0)
    rating := toFixed1 (jsOrV (apiGetStat l "quarterbackRating") (jsOrV (apiGetStat l "QBRating") 0)) }

/-- Processing of one leader entry in `fetchQBStats` (api.js): the three
`$ref` fetches run under one `Promise.all` inside one `try`, so a failure
of ANY present reference fetch (athlete, team or statistics) rejects the
join and the `catch` returns `null`, dropping the entry.  An absent team or
statistics `$ref` resolves to `null` instead and only defaults the
corresponding fields. -/
def processQBLeader (i : Nat) (leaderValue : Option ℚ)
    (athlete : Except Unit Athlete) (team : Option (Except Unit Team))
    (stats : Option (Except Unit StatsData)) : Option QBRecord :=
  match athlete, team, stats with
  | .error _, _, _ => none
  | _, some (.error _), _ => none
  | _, _, some (.error _) => none
  | .ok a, t, s =>
      some (mkQBRecord i (athleteName a)
        (match t with
         | some (.ok tm) => strOr tm.abbreviation "N/A"
         | _ => "N/A")
        leaderValue
        (match s with
         | some (.ok sd) => some sd
         | _ => none))

end ApiJs

/-- Substring test on character lists: `sub` occurs at some position. -/
def listIncludes (sub : List Char) : List Char → Bool
  | [] => sub.isEmpty
  | c :: t => List.isPrefixOf sub (c :: t) || listIncludes sub t

/-- JavaScript `s.includes(sub)`. -/
def jsIncludes (s sub : String) : Bool :=
  listIncludes sub.data s.data

/-!
## Cache and fallback orchestrator (api.js)

`localStorage` is modelled as an association list from keys to the
`{ data, timestamp }` objects that `setCachedData` serializes (the JSON
round trip is the identity on this value model).  `fetchWithCache` is a
function of the explicit store, the current time, and the outcomes of the
live fetch and of the optional static-file read; it additionally reports
how many live fetches and static-file reads the call performed, so that
"zero network activity" is a provable statement.
-/

/-- `CACHE_DURATION = 5 * 60 * 1000` milliseconds. -/
def CACHE_DURATION : Nat := 5 * 60 * 1000

/-- The localStorage model: key, cached data, and storage timestamp. -/
def Store := List (String × JsVal × Nat)

/-- `localStorage.getItem`-style lookup. -/
def lookupStore (store : Store) (key : String) : Option (JsVal × Nat) :=
  (List.find? (fun e => e.1 == key) store).map Prod.snd

/-- `localStorage.removeItem`. -/
def removeStore (store : Store) (key : String) : Store :=
  List.filter (fun e => !(e.1 == key)) store

namespace ApiJs

/-- `setCachedData`: store `{ data, timestamp: Date.now() }` under `key`,
replacing any previous entry. -/
def setCachedData (store : Store) (key : String) (data : JsVal) (now : Nat) : Store :=
  (key, data, now) :: removeStore store key

/-- `getCachedData`: `null` on a missing key; on a present entry, evict and
return `null` when `now - timestamp > CACHE_DURATION`, else the data.  The
updated store is returned alongside (eviction is the only mutation). -/
def getCachedData (store : Store) (now : Nat) (key : String) :
    Option JsVal × Store :=
  match lookupStore store key with
  | none => (none, store)
  | some (d, ts) =>
      if CACHE_DURATION < now - ts then (none, removeStore store key)
      else (some d, store)

/-- Apply the optional `extractFunction` to the parsed static payload. -/
def applyExtract (extract : Option (JsVal → JsVal)) (v : JsVal) : JsVal :=
  match extract with
  | some f => f v
  | none => v

/-- Result of one `fetchWithCache` call: the returned value, the updated
store, and how many live fetches / static-file reads were performed. -/
structure FWCResult where
  result : JsVal
  store : Store
  liveCalls : Nat
  staticReads : Nat

/-- Stage 3/4 of `fetchWithCache` (the `catch` block): with no static file
return `[]`; otherwise read the file (one static read); an HTTP or parse
failure returns `[]`; an empty extracted payload returns `[]` WITHOUT
caching; a non-empty extracted payload is cached and returned. -/
def staticFallback (store : Store) (now : Nat) (key : String)
    (staticRead : Option (Except Unit JsVal)) (extract : Option (JsVal → JsVal))
    (liveCalls : Nat) : FWCResult :=
  match staticRead with
  | none => ⟨.arr [], store, liveCalls, 0⟩
  | some (.error _) => ⟨.arr [], store, liveCalls, 1⟩
  | some (.ok staticData) =>
      let dataToCache := applyExtract extract staticData
      if isEmptyData dataToCache then ⟨.arr [], store, liveCalls, 1⟩
      else ⟨dataToCache, setCachedData store key dataToCache now, liveCalls, 1⟩

/-- Stage 2 of `fetchWithCache` (the `try` block): invoke the live fetch
(one live call).  A throw, or an empty result while a static file is
configured, falls through to the static fallback; otherwise the fresh data
is cached (even when empty, if no static file is configured) and returned. -/
def liveStage (store : Store) (now : Nat) (key : String)
    (live : Except Unit JsVal) (staticRead : Option (Except Unit JsVal))
    (extract : Option (JsVal → JsVal)) : FWCResult :=
  match live with
  | .ok freshData =>
      if isEmptyData freshData && staticRead.isSome then
        staticFallback store now key staticRead extract 1
      else ⟨freshData, setCachedData store key freshData now, 1, 0⟩
  | .error _ => staticFallback store now key staticRead extract 1

/-- `fetchWithCache` from api.js.  `staticRead = none` models a call with no
`staticFile` argument; `some r` models a configured static file whose
read/parse outcome would be `r`.  A cached value is returned only when it
is truthy (`if (cachedData)`), with no further activity. -/
def fetchWithCache (store : Store) (now : Nat) (key : String)
    (live : Except Unit JsVal) (staticRead : Option (Except Unit JsVal))
    (extract : Option (JsVal → JsVal)) : FWCResult :=
  match (getCachedData store now key).1 with
  | some d =>
      if truthy d then ⟨d, (getCachedData store now key).2, 0, 0⟩
      else liveStage (getCachedData store now key).2 now key live staticRead extract
  | none => liveStage (getCachedData store now key).2 now key live staticRead extract

/-- `NFLAPI.clearCache`: remove every localStorage key whose name contains
the substring `'schedule'` or `'stats'`. -/
def clearCache (store : Store) : Store :=
  List.filter (fun e => !(jsIncludes e.1 "schedule" || jsIncludes e.1 "stats")) store

end ApiJs

/-!
## Helper lemmas
-/

@[simp] theorem orQ_none (b : ℚ) : orQ none b = b := rfl

@[simp] theorem jsOrV_zero_left (b : ℚ) : jsOrV 0 b = b := by
  simp [jsOrV]

theorem floor_half_rat : ⌊(2⁻¹ : ℚ)⌋ = 0 := by
  rw [Int.floor_eq_zero_iff]
  constructor <;> norm_num

@[simp] theorem jsRound_zero : jsRound 0 = 0 := by
  simp [jsRound, one_div, floor_half_rat]

@[simp] theorem jsRound_intCast (n : ℤ) : jsRound (n : ℚ) = n := by
  simp [jsRound, one_div, add_comm (n : ℚ) 2⁻¹, Int.floor_add_int, floor_half_rat]

@[simp] theorem toFixed1_zero : toFixed1 0 = "0.0" := by
  simp [toFixed1, one_div, floor_half_rat, fmtTenths]
  rfl

@[simp] theorem toFixed1_zero_pct : toFixed1 0 ++ "%" = "0.0%" := by
  rw [toFixed1_zero]
  rfl

theorem weekOf_bounds (s e t : Int) : 1 ≤ weekOf s e t ∧ weekOf s e t ≤ 18 := by
  unfold weekOf
  split_ifs with h1 h2
  · omega
  · omega
  · refine ⟨le_min ?_ (by omega), min_le_right _ _⟩
    have hnn : 0 ≤ (t - s).ediv millisecondsPerWeek :=
      Int.ediv_nonneg (by omega) (by norm_num [millisecondsPerWeek])
    omega

theorem weekOf_mono (s e : Int) {t1 t2 : Int} (h : t1 ≤ t2) :
    weekOf s e t1 ≤ weekOf s e t2 := by
  have hb1 := weekOf_bounds s e t1
  have hb2 := weekOf_bounds s e t2
  unfold weekOf at hb1 hb2 ⊢
  split_ifs with h1 h2 h3 h4 h5 h6 h7 <;> try omega
  · have hdiv : (t1 - s).ediv millisecondsPerWeek ≤ (t2 - s).ediv millisecondsPerWeek :=
      Int.ediv_le_ediv (by norm_num [millisecondsPerWeek]) (by omega)
    exact min_le_min (by omega) le_rfl

@[simp] theorem lookupStore_setCachedData (s : Store) (k : String) (v : JsVal) (t : Nat) :
    lookupStore (ApiJs.setCachedData s k v t) k = some (v, t) := by
  simp [ApiJs.setCachedData, lookupStore, List.find?]

@[simp] theorem lookupStore_cons (a : String) (vt : JsVal × Nat) (t : Store) (k : String) :
    lookupStore ((a, vt) :: t) k = if (a == k) then some vt else lookupStore t k := by
  by_cases h : a == k <;> simp [lookupStore, List.find?_cons, h]

@[simp] theorem lookupStore_removeStore (s : Store) (k : String) :
    lookupStore (removeStore s k) k = none := by
  induction s with
  | nil => rfl
  | cons e t ih =>
      by_cases h : e.1 == k <;>
        simp [removeStore, List.filter_cons, h] at ih ⊢ <;>
        simp_all [lookupStore, List.find?_cons, h]

theorem fd_seasonStart_le_end (sy : Int) :
    FetchData.seasonStart sy ≤ FetchData.regularSeasonEnd sy := by
  unfold FetchData.seasonStart FetchData.regularSeasonEnd utcMs daysFromCivil
  norm_num
  omega

theorem lookupStore_filter_key (q : String → Bool) (store : Store) (k : String) :
    lookupStore (List.filter (fun e => q e.1) store) k =
      if q k then lookupStore store k else none := by
  induction store with
  | nil => by_cases h : q k <;> simp [lookupStore, h]
  | cons e t ih =>
      obtain ⟨a, vt⟩ := e
      by_cases hak : a = k
      · subst hak
        by_cases hqa : q a
        · simp [List.filter_cons, hqa]
        · simp only [Bool.not_eq_true] at hqa
          simp [List.filter_cons, hqa, ih]
      · have hbeq : (a == k) = false := beq_eq_false_iff_ne.mpr hak
        by_cases hqa : q a
        · simp [List.filter_cons, hqa, hbeq, ih]
        · simp only [Bool.not_eq_true] at hqa
          simp [List.filter_cons, hqa, hbeq, ih]

/-!
## Claim theorems
-/

/-- C3 (amended): both week calculators follow the branch structure
(1 before the computed season start, 18 after the computed season end,
otherwise floored weeks-plus-one capped at 18) and always land in [1, 18];
the fixed-window api.js calculator is monotonically non-decreasing in the
date, and the fetch-data.js calculator is monotonically non-decreasing
among dates that share the same computed season year. -/
theorem week_calculator_spec (t1 t2 : Int) :
    (t1 < ApiJs.seasonStart → ApiJs.getCurrentNFLWeek t1 = 1) ∧
    (ApiJs.regularSeasonEnd < t1 → ApiJs.getCurrentNFLWeek t1 = 18) ∧
    (ApiJs.seasonStart ≤ t1 → t1 ≤ ApiJs.regularSeasonEnd →
      ApiJs.getCurrentNFLWeek t1 =
        min ((t1 - ApiJs.seasonStart).ediv millisecondsPerWeek + 1) 18) ∧
    (1 ≤ ApiJs.getCurrentNFLWeek t1 ∧ ApiJs.getCurrentNFLWeek t1 ≤ 18) ∧
    (t1 ≤ t2 → ApiJs.getCurrentNFLWeek t1 ≤ ApiJs.getCurrentNFLWeek t2) ∧
    (t1 < FetchData.seasonStart (FetchData.getCurrentNFLSeason t1) →
      FetchData.getCurrentNFLWeek t1 = 1) ∧
    (FetchData.regularSeasonEnd (FetchData.getCurrentNFLSeason t1) < t1 →
      FetchData.getCurrentNFLWeek t1 = 18) ∧
    (FetchData.seasonStart (FetchData.getCurrentNFLSeason t1) ≤ t1 →
      t1 ≤ FetchData.regularSeasonEnd (FetchData.getCurrentNFLSeason t1) →
      FetchData.getCurrentNFLWeek t1 =
        min ((t1 - FetchData.seasonStart (FetchData.getCurrentNFLSeason t1)).ediv
          millisecondsPerWeek + 1) 18) ∧
    (1 ≤ FetchData.getCurrentNFLWeek t1 ∧ FetchData.getCurrentNFLWeek t1 ≤ 18) ∧
    (FetchData.getCurrentNFLSeason t1 = FetchData.getCurrentNFLSeason t2 → t1 ≤ t2 →
      FetchData.getCurrentNFLWeek t1 ≤ FetchData.getCurrentNFLWeek t2) := by
  refine ⟨fun h => ?_, fun h => ?_, fun h1 h2 => ?_, ?_, fun h => ?_,
    fun h => ?_, fun h => ?_, fun h1 h2 => ?_, ?_, fun hs h => ?_⟩
  · simp [ApiJs.getCurrentNFLWeek, weekOf, h]
  · have hse : ApiJs.seasonStart ≤ ApiJs.regularSeasonEnd := by decide
    simp [ApiJs.getCurrentNFLWeek, weekOf, h, not_lt.mpr (le_trans hse (le_of_lt h))]
  · simp [ApiJs.getCurrentNFLWeek, weekOf, not_lt.mpr h1, not_lt.mpr h2]
  · exact weekOf_bounds _ _ _
  · exact weekOf_mono _ _ h
  · simp only [FetchData.getCurrentNFLWeek]
    simp [weekOf, h]
  · have hse := fd_seasonStart_le_end (FetchData.getCurrentNFLSeason t1)
    simp only [FetchData.getCurrentNFLWeek]
    simp [weekOf, h, not_lt.mpr (le_trans hse (le_of_lt h))]
  · simp only [FetchData.getCurrentNFLWeek]
    simp [weekOf, not_lt.mpr h1, not_lt.mpr h2]
  · exact weekOf_bounds _ _ _
  · simp only [FetchData.getCurrentNFLWeek]
    rw [hs]
    exact weekOf_mono _ _ h

/-- C3 witness: the api.js calculator at concrete dates before, inside and
after the 2024 window, and the fetch-data.js calculator inside one season. -/
theorem week_calculator_spec_witness :
    ApiJs.getCurrentNFLWeek (utcMs 2024 9 1 0 0 0) = 1 ∧
    ApiJs.getCurrentNFLWeek (utcMs 2025 3 1 0 0 0) = 18 ∧
    ApiJs.getCurrentNFLWeek (utcMs 2024 10 20 12 0 0) ≤
      ApiJs.getCurrentNFLWeek (utcMs 2024 11 20 12 0 0) ∧
    FetchData.getCurrentNFLWeek (utcMs 2025 10 5 0 0 0) =
      min ((utcMs 2025 10 5 0 0 0 -
        FetchData.seasonStart (FetchData.getCurrentNFLSeason (utcMs 2025 10 5 0 0 0))).ediv
          millisecondsPerWeek + 1) 18 ∧
    FetchData.getCurrentNFLWeek (utcMs 2025 10 5 0 0 0) ≤
      FetchData.getCurrentNFLWeek (utcMs 2025 11 5 0 0 0) :=
  ⟨(week_calculator_spec (utcMs 2024 9 1 0 0 0) 0).1 (by decide),
   (week_calculator_spec (utcMs 2025 3 1 0 0 0) 0).2.1 (by decide),
   (week_calculator_spec (utcMs 2024 10 20 12 0 0) (utcMs 2024 11 20 12 0 0)).2.2.2.2.1
     (by decide),
   (week_calculator_spec (utcMs 2025 10 5 0 0 0) 0).2.2.2.2.2.2.2.1
     (by decide) (by decide),
   (week_calculator_spec (utcMs 2025 10 5 0 0 0)
       (utcMs 2025 11 5 0 0 0)).2.2.2.2.2.2.2.2.2 (by decide) (by decide)⟩

/-- C3 counterexample: the fetch-data.js week calculator is NOT monotone in
the date across the season rollover: on 2025-08-31 the computed season is
2024 and the date is past that season's end (week 18), while on 2025-09-08
the computed season is 2025 and the week is 1. -/
theorem week_not_monotone_counterexample :
    utcMs 2025 8 31 12 0 0 < utcMs 2025 9 8 12 0 0 ∧
    FetchData.getCurrentNFLWeek (utcMs 2025 8 31 12 0 0) = 18 ∧
    FetchData.getCurrentNFLWeek (utcMs 2025 9 8 12 0 0) = 1 :=
  ⟨by decide, by decide, by decide⟩

/-- C8 (amended): the browser adapter `fetchWithTimeout` returns the parsed
value exactly for a 2xx response with a valid JSON body, fails with an HTTP
error carrying the status for every non-2xx response, with a parse error
for an invalid 2xx body, and with a timeout error on timeout.  The batch
adapter `fetchUrl` behaves the same way except that it accepts exactly
status 200: every other status, including other 2xx statuses, fails with an
HTTP error carrying that status. -/
theorem fetch_adapter_spec (status : Nat) (body : Except Unit JsVal) (v : JsVal) :
    (ApiJs.fetchWithTimeout .timeout = .error .timeout) ∧
    (FetchData.fetchUrl .timeout = .error .timeout) ∧
    (200 ≤ status → status ≤ 299 →
      ApiJs.fetchWithTimeout (.response status (.ok v)) = .ok v) ∧
    (¬(200 ≤ status ∧ status ≤ 299) →
      ApiJs.fetchWithTimeout (.response status body) = .error (.httpError status)) ∧
    (200 ≤ status → status ≤ 299 →
      ApiJs.fetchWithTimeout (.response status (.error ())) = .error .parseError) ∧
    (FetchData.fetchUrl (.response 200 (.ok v)) = .ok v) ∧
    (status ≠ 200 →
      FetchData.fetchUrl (.response status body) = .error (.httpError status)) ∧
    (FetchData.fetchUrl (.response 200 (.error ())) = .error .parseError) := by
  refine ⟨rfl, rfl, fun h1 h2 => ?_, fun h => ?_, fun h1 h2 => ?_, rfl, fun h => ?_, rfl⟩
  · simp [ApiJs.fetchWithTimeout, h1, h2]
  · simp [ApiJs.fetchWithTimeout, h]
  · simp [ApiJs.fetchWithTimeout, h1, h2]
  · simp [FetchData.fetchUrl, h]

/-- C8 witness: a 204 response with a valid body succeeds in the browser
adapter, and a 404 response fails with `httpError 404` in both adapters. -/
theorem fetch_adapter_spec_witness :
    ApiJs.fetchWithTimeout (.response 204 (.ok (.str "ok"))) = .ok (.str "ok") ∧
    ApiJs.fetchWithTimeout (.response 404 (.ok (.str "ok"))) = .error (.httpError 404) ∧
    FetchData.fetchUrl (.response 404 (.ok (.str "ok"))) = .error (.httpError 404) :=
  ⟨(fetch_adapter_spec 204 (.ok (.str "ok")) (.str "ok")).2.2.1 (by decide) (by decide),
   (fetch_adapter_spec 404 (.ok (.str "ok")) (.str "ok")).2.2.2.1 (by decide),
   (fetch_adapter_spec 404 (.ok (.str "ok")) (.str "ok")).2.2.2.2.2.2.1 (by decide)⟩

/-- C8 counterexample: status 201 is 2xx and its body parses, yet the batch
adapter `fetchUrl` does not return the parsed value: it checks
`statusCode === 200` and fails with an HTTP error instead. -/
theorem fetch_adapter_counterexample :
    FetchData.fetchUrl (.response 201 (.ok (.str "x"))) = .error (.httpError 201) ∧
    FetchData.fetchUrl (.response 201 (.ok (.str "x"))) ≠ .ok (.str "x") :=
  ⟨rfl, fun h => Except.noConfusion h⟩

/-- C9 (amended): the batch implementation maps either raw naming
convention (`passingYards`/`passing`, `receivingYards`/`receiving`,
`rushingYards`/`rushing`) to the corresponding category key; the browser
implementation instead matches a category by `name` equal to the long
convention or `displayName` equal to the human-readable label, and does NOT
accept the short names. -/
theorem category_matching_spec (n d : String) :
    FetchData.categoryTargetKey "passingYards" = some "qb" ∧
    FetchData.categoryTargetKey "passing" = some "qb" ∧
    FetchData.categoryTargetKey "receivingYards" = some "receivers" ∧
    FetchData.categoryTargetKey "receiving" = some "receivers" ∧
    FetchData.categoryTargetKey "rushingYards" = some "rushers" ∧
    FetchData.categoryTargetKey "rushing" = some "rushers" ∧
    ApiJs.qbCategoryMatches "passingYards" d = true ∧
    ApiJs.qbCategoryMatches n "Passing Yards" = true ∧
    ApiJs.receiverCategoryMatches "receivingYards" d = true ∧
    ApiJs.receiverCategoryMatches n "Receiving Yards" = true ∧
    ApiJs.rushingCategoryMatches "rushingYards" d = true ∧
    ApiJs.rushingCategoryMatches n "Rushing Yards" = true ∧
    ApiJs.qbCategoryMatches "passing" "x" = false ∧
    ApiJs.receiverCategoryMatches "receiving" "x" = false ∧
    ApiJs.rushingCategoryMatches "rushing" "x" = false := by
  refine ⟨rfl, rfl, rfl, rfl, rfl, rfl, ?_, ?_, ?_, ?_, ?_, ?_, rfl, rfl, rfl⟩ <;>
    simp [ApiJs.qbCategoryMatches, ApiJs.receiverCategoryMatches,
      ApiJs.rushingCategoryMatches]

/-- C9 counterexample: a source category named `passing` (with a
displayName other than the matched label) maps to `qb` in the batch
implementation but is NOT matched by the browser implementation's
`fetchQBStats`, contradicting "every fetch implementation accepts either
naming convention". -/
theorem category_matching_counterexample :
    FetchData.categoryTargetKey "passing" = some "qb" ∧
    ApiJs.qbCategoryMatches "passing" "Passing" = false :=
  ⟨rfl, rfl⟩

/-- C10 (confirmed): `clearCache` removes exactly the localStorage keys
containing the substring `schedule` or `stats`: a matching key looks up to
nothing afterwards, and a non-matching key keeps its stored value. -/
theorem clearCache_spec (store : Store) (k : String) :
    ((jsIncludes k "schedule" || jsIncludes k "stats") = true →
      lookupStore (ApiJs.clearCache store) k = none) ∧
    ((jsIncludes k "schedule" || jsIncludes k "stats") = false →
      lookupStore (ApiJs.clearCache store) k = lookupStore store k) := by
  have h := lookupStore_filter_key
    (fun s => !(jsIncludes s "schedule" || jsIncludes s "stats")) store k
  constructor
  · intro hm
    rw [ApiJs.clearCache, h, hm]
    simp
  · intro hm
    rw [ApiJs.clearCache, h, hm]
    simp

/-- C10 witness: clearing a store holding a stats key and an unrelated key
removes the former and leaves the latter untouched. -/
theorem clearCache_spec_witness :
    lookupStore (ApiJs.clearCache
      [("qb_stats", .arr [.str "a"], 5), ("user_pref", .str "dark", 7)]) "qb_stats"
      = none ∧
    lookupStore (ApiJs.clearCache
      [("qb_stats", .arr [.str "a"], 5), ("user_pref", .str "dark", 7)]) "user_pref"
      = some (.str "dark", 7) :=
  ⟨(clearCache_spec _ "qb_stats").1 (by decide),
   ((clearCache_spec
      [("qb_stats", .arr [.str "a"], 5), ("user_pref", .str "dark", 7)]
      "user_pref").2 (by decide)).trans rfl⟩


theorem getCachedData_snd (store : Store) (now : Nat) (key : String) :
    (ApiJs.getCachedData store now key).2 = store ∨
    (ApiJs.getCachedData store now key).2 = removeStore store key := by
  unfold ApiJs.getCachedData
  rcases hls : lookupStore store key with _ | ⟨d, ts⟩
  · exact .inl rfl
  · by_cases h : CACHE_DURATION < now - ts
    · simp [h]
    · simp [h]

theorem lookupStore_getCachedData_snd (store : Store) (now : Nat) (key : String) :
    lookupStore (ApiJs.getCachedData store now key).2 key = lookupStore store key ∨
    lookupStore (ApiJs.getCachedData store now key).2 key = none := by
  rcases getCachedData_snd store now key with h | h <;> rw [h]
  · exact .inl rfl
  · exact .inr (lookupStore_removeStore _ _)

theorem fetchWithCache_hit (s : Store) (now : Nat) (key : String)
    (live : Except Unit JsVal) (sr : Option (Except Unit JsVal))
    (ex : Option (JsVal → JsVal)) (d : JsVal) (t : Nat)
    (hlk : lookupStore s key = some (d, t)) (htr : truthy d = true)
    (hwin : now - t ≤ CACHE_DURATION) :
    ApiJs.fetchWithCache s now key live sr ex = ⟨d, s, 0, 0⟩ := by
  unfold ApiJs.fetchWithCache ApiJs.getCachedData
  rw [hlk]
  simp [Nat.not_lt.mpr hwin, htr]

/-- C2 (confirmed): when the cache misses, the live fetch throws or yields
an empty result while a static file is configured, and the static source is
absent, unreadable, or yields an empty extracted payload, `fetchWithCache`
returns the empty array.  (Its result type is a plain value, so no failure
can propagate to the caller.) -/
theorem orchestrator_absorbs_failures (store : Store) (now : Nat) (key : String)
    (live : Except Unit JsVal) (staticRead : Option (Except Unit JsVal))
    (extract : Option (JsVal → JsVal))
    (hmiss : (ApiJs.getCachedData store now key).1 = none)
    (hlive : live = .error () ∨
      ∃ v, live = .ok v ∧ isEmptyData v = true ∧ staticRead.isSome = true)
    (hstatic : staticRead = none ∨ staticRead = some (.error ()) ∨
      ∃ v, staticRead = some (.ok v) ∧
        isEmptyData (ApiJs.applyExtract extract v) = true) :
    (ApiJs.fetchWithCache store now key live staticRead extract).result = .arr [] := by
  have hfall : ∀ s n,
      (ApiJs.staticFallback s now key staticRead extract n).result = .arr [] := by
    intro s n
    rcases hstatic with h | h | ⟨v, h, hempty⟩
    · rw [h]
      rfl
    · rw [h]
      rfl
    · rw [h]
      simp [ApiJs.staticFallback, hempty]
  unfold ApiJs.fetchWithCache
  rw [hmiss]
  rcases hlive with h | ⟨v, h, hempty, hsome⟩ <;> subst h
  · simp [ApiJs.liveStage, hfall]
  · simp [ApiJs.liveStage, hempty, hsome, hfall]

/-- C2 witness: empty cache, a throwing live fetch and an unreadable static
file produce the empty array. -/
theorem orchestrator_absorbs_failures_witness :
    (ApiJs.fetchWithCache [] 0 "k" (.error ()) (some (.error ())) none).result
      = .arr [] :=
  orchestrator_absorbs_failures [] 0 "k" (.error ()) (some (.error ())) none rfl
    (.inl rfl) (.inr (.inl rfl))

/-- C5 (confirmed): on a cache miss with a throwing live fetch, a configured
static file whose read succeeds and whose extracted payload is non-empty,
`fetchWithCache` returns the extracted payload and stores exactly it in the
cache under the given key, stamped with the current time. -/
theorem orchestrator_archival_fallback (store : Store) (now : Nat) (key : String)
    (staticData : JsVal) (extract : Option (JsVal → JsVal))
    (hmiss : (ApiJs.getCachedData store now key).1 = none)
    (hne : isEmptyData (ApiJs.applyExtract extract staticData) = false) :
    (ApiJs.fetchWithCache store now key (.error ())
        (some (.ok staticData)) extract).result
      = ApiJs.applyExtract extract staticData ∧
    lookupStore (ApiJs.fetchWithCache store now key (.error ())
        (some (.ok staticData)) extract).store key
      = some (ApiJs.applyExtract extract staticData, now) := by
  unfold ApiJs.fetchWithCache
  rw [hmiss]
  simp [ApiJs.liveStage, ApiJs.staticFallback, hne]

/-- C5 witness: with an empty cache, a throwing live fetch and a static file
holding a non-empty array, the array is returned and cached. -/
theorem orchestrator_archival_fallback_witness :
    (ApiJs.fetchWithCache [] 0 "k" (.error ())
        (some (.ok (.arr [.str "g"]))) none).result = .arr [.str "g"] ∧
    lookupStore (ApiJs.fetchWithCache [] 0 "k" (.error ())
        (some (.ok (.arr [.str "g"]))) none).store "k"
      = some (.arr [.str "g"], 0) :=
  orchestrator_archival_fallback [] 0 "k" (.arr [.str "g"]) none rfl rfl

/-- C6 (amended): if after a first `fetchWithCache` call the cache holds a
TRUTHY value for the key with a timestamp within the 5-minute window of the
second call, then the second call with the same key performs zero live
fetches and zero static-file reads, returns the cached value, and leaves
the store unchanged.  (The truthiness proviso is forced: a falsy stored
value fails the `if (cachedData)` test and the second call fetches again.) -/
theorem orchestrator_cache_idempotent (store : Store) (now1 now2 : Nat)
    (key : String) (live1 live2 : Except Unit JsVal)
    (sr1 sr2 : Option (Except Unit JsVal)) (ex1 ex2 : Option (JsVal → JsVal))
    (d : JsVal) (t : Nat)
    (hstored : lookupStore (ApiJs.fetchWithCache store now1 key live1 sr1 ex1).store key
      = some (d, t))
    (htruthy : truthy d = true)
    (hwindow : now2 - t ≤ CACHE_DURATION) :
    (ApiJs.fetchWithCache (ApiJs.fetchWithCache store now1 key live1 sr1 ex1).store
        now2 key live2 sr2 ex2).liveCalls = 0 ∧
    (ApiJs.fetchWithCache (ApiJs.fetchWithCache store now1 key live1 sr1 ex1).store
        now2 key live2 sr2 ex2).staticReads = 0 ∧
    (ApiJs.fetchWithCache (ApiJs.fetchWithCache store now1 key live1 sr1 ex1).store
        now2 key live2 sr2 ex2).result = d ∧
    (ApiJs.fetchWithCache (ApiJs.fetchWithCache store now1 key live1 sr1 ex1).store
        now2 key live2 sr2 ex2).store
      = (ApiJs.fetchWithCache store now1 key live1 sr1 ex1).store := by
  rw [fetchWithCache_hit _ now2 key live2 sr2 ex2 d t hstored htruthy hwindow]
  exact ⟨rfl, rfl, rfl, rfl⟩

/-- C6 witness: a first call caching a non-empty array, then a second call
one second later: no live fetch, no static read, the cached array returned. -/
theorem orchestrator_cache_idempotent_witness :
    (ApiJs.fetchWithCache (ApiJs.fetchWithCache [] 0 "k" (.ok (.arr [.str "a"]))
        none none).store 1000 "k" (.ok (.arr [.str "b"])) none none).liveCalls = 0 ∧
    (ApiJs.fetchWithCache (ApiJs.fetchWithCache [] 0 "k" (.ok (.arr [.str "a"]))
        none none).store 1000 "k" (.ok (.arr [.str "b"])) none none).staticReads = 0 ∧
    (ApiJs.fetchWithCache (ApiJs.fetchWithCache [] 0 "k" (.ok (.arr [.str "a"]))
        none none).store 1000 "k" (.ok (.arr [.str "b"])) none none).result
      = .arr [.str "a"] := by
  have h := orchestrator_cache_idempotent [] 0 1000 "k" (.ok (.arr [.str "a"]))
    (.ok (.arr [.str "b"])) none none none none (.arr [.str "a"]) 0 rfl rfl
    (by decide)
  exact ⟨h.1, h.2.1, h.2.2.1⟩

/-- C6 counterexample: a live fetch resolving to `null` with no static file
configured: the first call stores `null` in the cache, yet the second call
within the window still performs a live fetch, because the falsy cached
value fails the `if (cachedData)` test. -/
theorem orchestrator_cache_refetch_counterexample :
    lookupStore (ApiJs.fetchWithCache [] 0 "k" (.ok .null) none none).store "k"
      = some (.null, 0) ∧
    (ApiJs.fetchWithCache (ApiJs.fetchWithCache [] 0 "k" (.ok .null) none none).store
        1000 "k" (.ok (.arr [.str "b"])) none none).liveCalls = 1 :=
  ⟨rfl, rfl⟩

/-- C7 (amended): when a static file is configured, every cache entry for
the key after a `fetchWithCache` call is either the pre-existing entry or a
non-empty value; but when NO static file is configured, the live result is
cached unconditionally on a cache miss — including empty collections. -/
theorem orchestrator_cache_writes (store : Store) (now : Nat) (key : String)
    (live : Except Unit JsVal) (staticRead : Option (Except Unit JsVal))
    (extract : Option (JsVal → JsVal)) (v : JsVal) (t : Nat) :
    (staticRead.isSome = true →
      lookupStore (ApiJs.fetchWithCache store now key live staticRead extract).store key
        = some (v, t) →
      lookupStore store key = some (v, t) ∨ isEmptyData v = false) ∧
    ((ApiJs.getCachedData store now key).1 = none → ∀ fresh,
      lookupStore (ApiJs.fetchWithCache store now key (.ok fresh) none extract).store key
        = some (fresh, now)) := by
  constructor
  · intro hsome hlk
    have hfall : ∀ s n, lookupStore s key = lookupStore store key ∨
        lookupStore s key = none →
        lookupStore (ApiJs.staticFallback s now key staticRead extract n).store key
          = some (v, t) →
        lookupStore store key = some (v, t) ∨ isEmptyData v = false := by
      intro s n hs hl
      rcases staticRead with _ | r
      · simp at hsome
      rcases r with e | sd
      · simp only [ApiJs.staticFallback] at hl
        rcases hs with hs | hs <;> rw [hs] at hl
        · exact .inl hl
        · exact absurd hl (by simp)
      · simp only [ApiJs.staticFallback] at hl
        by_cases hemp : isEmptyData (ApiJs.applyExtract extract sd) = true
        · rw [if_pos hemp] at hl
          rcases hs with hs | hs <;> rw [hs] at hl
          · exact .inl hl
          · exact absurd hl (by simp)
        · rw [if_neg hemp] at hl
          rw [Bool.not_eq_true] at hemp
          simp only [lookupStore_setCachedData, Option.some.injEq, Prod.mk.injEq] at hl
          right
          rw [← hl.1]
          exact hemp
    have hlive : ∀ s, lookupStore s key = lookupStore store key ∨
        lookupStore s key = none →
        lookupStore (ApiJs.liveStage s now key live staticRead extract).store key
          = some (v, t) →
        lookupStore store key = some (v, t) ∨ isEmptyData v = false := by
      intro s hs hl
      rcases live with e | fresh
      · exact hfall s 1 hs hl
      · simp only [ApiJs.liveStage] at hl
        by_cases hcond : (isEmptyData fresh && staticRead.isSome) = true
        · rw [if_pos hcond] at hl
          exact hfall s 1 hs hl
        · rw [if_neg hcond] at hl
          simp only [lookupStore_setCachedData, Option.some.injEq, Prod.mk.injEq] at hl
          have hfe : isEmptyData fresh = false := by
            cases hfe2 : isEmptyData fresh
            · rfl
            · exact absurd (by simp [hfe2, hsome]) hcond
          right
          rw [← hl.1]
          exact hfe
    revert hlk
    unfold ApiJs.fetchWithCache
    rcases hc : (ApiJs.getCachedData store now key).1 with _ | dc
    · intro hlk
      exact hlive _ (lookupStore_getCachedData_snd store now key) hlk
    · dsimp only
      by_cases htr : truthy dc = true
      · rw [if_pos htr]
        intro hlk
        have h2 : (ApiJs.getCachedData store now key).2 = store := by
          unfold ApiJs.getCachedData at hc ⊢
          rcases hls : lookupStore store key with _ | ⟨d0, ts0⟩
          · rw [hls] at hc
          · rw [hls] at hc
            dsimp only at hc ⊢
            by_cases hexp : CACHE_DURATION < now - ts0
            · rw [if_pos hexp] at hc
              simp at hc
            · rw [if_neg hexp]
        rw [h2] at hlk
        exact .inl hlk
      · rw [if_neg htr]
        intro hlk
        exact hlive _ (lookupStore_getCachedData_snd store now key) hlk
  · intro hmiss fresh
    unfold ApiJs.fetchWithCache
    rw [hmiss]
    simp [ApiJs.liveStage]

/-- C7 witness: with a static file configured, a cache entry created by the
archival path is non-empty; with no static file, an empty fresh array is
cached as-is. -/
theorem orchestrator_cache_writes_witness :
    (lookupStore ([] : Store) "k" = some (.arr [.str "c"], 0) ∨
      isEmptyData (.arr [.str "c"]) = false) ∧
    lookupStore (ApiJs.fetchWithCache [] 0 "k" (.ok (.arr [])) none none).store "k"
      = some (.arr [], 0) :=
  ⟨(orchestrator_cache_writes [] 0 "k" (.error ()) (some (.ok (.arr [.str "c"])))
      none (.arr [.str "c"]) 0).1 rfl rfl,
   (orchestrator_cache_writes [] 0 "k" (.ok (.arr [])) none none (.arr []) 0).2
      rfl (.arr [])⟩

/-- C7 counterexample: with no static file configured, a live fetch
resolving to the empty array leads the orchestrator to WRITE that empty
collection to the cache, contradicting "any value it writes to the cache is
non-empty". -/
theorem orchestrator_caches_empty_counterexample :
    isEmptyData (.arr []) = true ∧
    lookupStore (ApiJs.fetchWithCache [] 0 "kk" (.ok (.arr [])) none none).store "kk"
      = some (.arr [], 0) :=
  ⟨rfl, rfl⟩

/-- C4 (amended): in the batch implementation (fetch-data.js), for a leader
entry whose athlete reference resolves, failure or absence of the team
reference yields the same record with `team = "N/A"`, and failure or
absence of the statistics reference yields the same record built from an
empty statistics map — neither fails the entry.  In the browser
implementation (api.js `fetchQBStats`), an ABSENT team or statistics
reference defaults the corresponding fields the same way, but a PRESENT
reference whose fetch fails rejects the joint `Promise.all` and the entry
is dropped. -/
theorem resolver_independence (i : Nat) (lv : Option ℚ) (a : Athlete)
    (team : Option (Except Unit Team)) (stats : Option (Except Unit StatsData))
    (sd : StatsData) (tm : Team) :
    ((team = none ∨ team = some (.error ())) →
      FetchData.processQBLeader i lv (some (.ok a)) team stats
        = some (FetchData.mkQBRecord (i + 1) (athleteName a) "N/A" lv
            (FetchData.resolveStats "qb" stats)) ∧
      FetchData.processReceiverLeader i lv (some (.ok a)) team stats
        = some (FetchData.mkReceiverRecord (i + 1) (athleteName a) "N/A" lv
            (FetchData.resolveStats "receivers" stats)) ∧
      FetchData.processRusherLeader i lv (some (.ok a)) team stats
        = some (FetchData.mkRusherRecord (i + 1) (athleteName a) "N/A" lv
            (FetchData.resolveStats "rushers" stats))) ∧
    ((stats = none ∨ stats = some (.error ())) →
      FetchData.processQBLeader i lv (some (.ok a)) team stats
        = some (FetchData.mkQBRecord (i + 1) (athleteName a)
            (FetchData.resolveTeam team) lv []) ∧
      FetchData.processReceiverLeader i lv (some (.ok a)) team stats
        = some (FetchData.mkReceiverRecord (i + 1) (athleteName a)
            (FetchData.resolveTeam team) lv []) ∧
      FetchData.processRusherLeader i lv (some (.ok a)) team stats
        = some (FetchData.mkRusherRecord (i + 1) (athleteName a)
            (FetchData.resolveTeam team) lv [])) ∧
    (ApiJs.processQBLeader i lv (.ok a) none (some (.ok sd))
      = some (ApiJs.mkQBRecord i (athleteName a) "N/A" lv (some sd))) ∧
    (ApiJs.processQBLeader i lv (.ok a) (some (.ok tm)) none
      = some (ApiJs.mkQBRecord i (athleteName a) (strOr tm.abbreviation "N/A") lv none)) ∧
    (ApiJs.processQBLeader i lv (.ok a) (some (.error ())) stats = none) ∧
    (ApiJs.processQBLeader i lv (.ok a) team (some (.error ())) = none) := by
  refine ⟨fun h => ?_, fun h => ?_, rfl, rfl, ?_, ?_⟩
  · rcases h with h | h <;> subst h <;> exact ⟨rfl, rfl, rfl⟩
  · rcases h with h | h <;> subst h <;> exact ⟨rfl, rfl, rfl⟩
  · rcases stats with _ | (_ | _) <;> rfl
  · rcases team with _ | (_ | _) <;> rfl

/-- C4 witness: with an athlete that resolves to "A" and an absent team
reference, the batch implementation produces the zero-default record with
team `N/A`; and in the browser implementation a failed statistics fetch
drops the entry. -/
theorem resolver_independence_witness :
    FetchData.processQBLeader 0 (some 4000) (some (.ok ⟨some "A", none⟩)) none none
      = some (FetchData.mkQBRecord 1 "A" "N/A" (some 4000) []) ∧
    ApiJs.processQBLeader 0 (some 4000) (.ok ⟨some "A", none⟩) none
      (some (.error ())) = none := by
  have h := resolver_independence 0 (some 4000) ⟨some "A", none⟩ none none none ⟨none⟩
  exact ⟨(h.1 (.inl rfl)).1, h.2.2.2.2.2⟩

/-- C4 counterexample: in api.js `fetchQBStats`, a leader whose athlete
reference resolves but whose team reference FETCH FAILS is dropped (the
`Promise.all` rejects and the `catch` returns `null`), instead of producing
a record with `team = "N/A"`; the batch implementation keeps the entry. -/
theorem resolver_team_failure_counterexample :
    ApiJs.processQBLeader 0 (some 4000) (.ok ⟨some "A", none⟩)
      (some (.error ())) none = none ∧
    FetchData.processQBLeader 0 (some 4000) (some (.ok ⟨some "A", none⟩))
      (some (.error ())) none
      = some (FetchData.mkQBRecord 1 "A" "N/A" (some 4000) []) :=
  ⟨rfl, rfl⟩

/-- C1 (confirmed): for every category variant and every combination of
absent source statistics, each field whose source statistics are absent
takes its concrete default — 0 for numeric fields, `"0.0"` for formatted
averages/ratings and `"0.0%"` for the completion percentage — in the
fetch-data.js transforms for all three keys and in the api.js
`fetchQBStats` extraction.  (The record types are total: no field of any
produced record can be null or undefined.) -/
theorem normalize_defaults (rank : Nat) (nm tm : String) (lv : Option ℚ)
    (m : List (String × ℚ)) (sp : Option StatsData) :
    (slook m "gamesPlayed" = none → slook m "teamGamesPlayed" = none →
      (FetchData.mkQBRecord rank nm tm lv m).games = 0) ∧
    (slook m "completions" = none →
      (FetchData.mkQBRecord rank nm tm lv m).completions = 0) ∧
    (slook m "passingAttempts" = none →
      (FetchData.mkQBRecord rank nm tm lv m).attempts = 0) ∧
    (slook m "completionPct" = none →
      (FetchData.mkQBRecord rank nm tm lv m).compPct = "0.0%") ∧
    (lv = none → (FetchData.mkQBRecord rank nm tm lv m).yards = 0) ∧
    (slook m "passingTouchdowns" = none →
      (FetchData.mkQBRecord rank nm tm lv m).tds = 0) ∧
    (slook m "interceptions" = none →
      (FetchData.mkQBRecord rank nm tm lv m).ints = 0) ∧
    (slook m "quarterbackRating" = none → slook m "QBRating" = none →
      (FetchData.mkQBRecord rank nm tm lv m).rating = "0.0") ∧
    (slook m "gamesPlayed" = none → slook m "teamGamesPlayed" = none →
      (FetchData.mkReceiverRecord rank nm tm lv m).games = 0) ∧
    (slook m "receptions" = none →
      (FetchData.mkReceiverRecord rank nm tm lv m).receptions = 0) ∧
    (slook m "receivingTargets" = none →
      (FetchData.mkReceiverRecord rank nm tm lv m).targets = 0) ∧
    (lv = none → (FetchData.mkReceiverRecord rank nm tm lv m).yards = 0) ∧
    (slook m "yardsPerReception" = none → slook m "avgYards" = none →
      (FetchData.mkReceiverRecord rank nm tm lv m).avg = "0.0") ∧
    (slook m "receivingTouchdowns" = none →
      (FetchData.mkReceiverRecord rank nm tm lv m).tds = 0) ∧
    (slook m "longReception" = none →
      (FetchData.mkReceiverRecord rank nm tm lv m).long = 0) ∧
    (slook m "receivingYardsPerGame" = none → slook m "yardsPerGame" = none →
      (FetchData.mkReceiverRecord rank nm tm lv m).ypg = "0.0") ∧
    (slook m "gamesPlayed" = none → slook m "teamGamesPlayed" = none →
      (FetchData.mkRusherRecord rank nm tm lv m).games = 0) ∧
    (slook m "rushingAttempts" = none →
      (FetchData.mkRusherRecord rank nm tm lv m).attempts = 0) ∧
    (lv = none → (FetchData.mkRusherRecord rank nm tm lv m).yards = 0) ∧
    (slook m "yardsPerRushAttempt" = none → slook m "avgYards" = none →
      (FetchData.mkRusherRecord rank nm tm lv m).avg = "0.0") ∧
    (slook m "rushingTouchdowns" = none →
      (FetchData.mkRusherRecord rank nm tm lv m).tds = 0) ∧
    (slook m "longRushing" = none →
      (FetchData.mkRusherRecord rank nm tm lv m).long = 0) ∧
    (slook m "rushingYardsPerGame" = none → slook m "yardsPerGame" = none →
      (FetchData.mkRusherRecord rank nm tm lv m).ypg = "0.0") ∧
    (slook m "rushingFumbles" = none → slook m "fumblesLost" = none →
      (FetchData.mkRusherRecord rank nm tm lv m).fumbles = 0) ∧
    (apiGetStat (ApiJs.passingStatsList sp) "gamesPlayed" = 0 →
      apiGetStat (ApiJs.passingStatsList sp) "teamGamesPlayed" = 0 →
      (ApiJs.mkQBRecord rank nm tm lv sp).games = 0) ∧
    (apiGetStat (ApiJs.passingStatsList sp) "completions" = 0 →
      (ApiJs.mkQBRecord rank nm tm lv sp).completions = 0) ∧
    (apiGetStat (ApiJs.passingStatsList sp) "passingAttempts" = 0 →
      (ApiJs.mkQBRecord rank nm tm lv sp).attempts = 0) ∧
    (apiGetStat (ApiJs.passingStatsList sp) "completionPct" = 0 →
      (ApiJs.mkQBRecord rank nm tm lv sp).compPct = "0.0%") ∧
    (lv = none → (ApiJs.mkQBRecord rank nm tm lv sp).yards = 0) ∧
    (apiGetStat (ApiJs.passingStatsList sp) "passingTouchdowns" = 0 →
      (ApiJs.mkQBRecord rank nm tm lv sp).tds = 0) ∧
    (apiGetStat (ApiJs.passingStatsList sp) "interceptions" = 0 →
      (ApiJs.mkQBRecord rank nm tm lv sp).ints = 0) ∧
    (apiGetStat (ApiJs.passingStatsList sp) "quarterbackRating" = 0 →
      apiGetStat (ApiJs.passingStatsList sp) "QBRating" = 0 →
      (ApiJs.mkQBRecord rank nm tm lv sp).rating = "0.0") := by
  refine ⟨?_, ?_, ?_, ?_, ?_, ?_, ?_, ?_, ?_, ?_, ?_, ?_, ?_, ?_, ?_, ?_,
    ?_, ?_, ?_, ?_, ?_, ?_, ?_, ?_, ?_, ?_, ?_, ?_, ?_, ?_, ?_, ?_⟩ <;>
    intros <;>
    simp_all [FetchData.mkQBRecord, FetchData.mkReceiverRecord,
      FetchData.mkRusherRecord, ApiJs.mkQBRecord]

/-- C1 witness: the empty statistics map yields the fully defaulted fields
in all three fetch-data.js variants and in the api.js extraction. -/
theorem normalize_defaults_witness :
    (FetchData.mkQBRecord 1 "A" "BAL" none []).games = 0 ∧
    (FetchData.mkQBRecord 1 "A" "BAL" none []).compPct = "0.0%" ∧
    (FetchData.mkQBRecord 1 "A" "BAL" none []).yards = 0 ∧
    (FetchData.mkQBRecord 1 "A" "BAL" none []).rating = "0.0" ∧
    (FetchData.mkReceiverRecord 1 "A" "BAL" none []).avg = "0.0" ∧
    (FetchData.mkRusherRecord 1 "A" "BAL" none []).fumbles = 0 ∧
    (ApiJs.mkQBRecord 1 "A" "BAL" none none).compPct = "0.0%" := by
  obtain ⟨h1, h2, h3, h4, h5, h6, h7, h8, h9, h10, h11, h12, h13, h14, h15, h16,
      h17, h18, h19, h20, h21, h22, h23, h24, h25, h26, h27, h28, h29, h30,
      h31, h32⟩ := normalize_defaults 1 "A" "BAL" none [] none
  exact ⟨h1 rfl rfl, h4 rfl, h5 rfl, h8 rfl rfl, h13 rfl rfl, h24 rfl rfl, h28 rfl⟩
